import Mathlib

/-!
Verification of the AWS-console mock (`script.js`) against its design
specification.  The file embeds, in order:

* the navigation click handler (single-active-section state machine),
* the confirm-gated deployment workflow (`deployArchitecture` /
  `showDeploymentProgress`),
* the configuration data model, its canonical export artifact
  (`exportArchitecture`) and the validation / serialization layer that the
  specification describes around it.

Parts of the repository are not shipped with the script (`index.html`
declares the nav links and sections) and parts exist only in the
specification (`validate`, `fromArtifact`); those are modelled explicitly
and marked as such in their doc comments.
-/

/-! ## Navigation -/

/-- The static page structure the navigation handler operates on.  The
repository's `index.html` (which declares the `.nav-link` elements and the
`.content-section` elements) is not part of the shipped script, so the DOM
is a parameter: `navLinks` holds the `data-section` attribute of each nav
link, `sections` holds the `id` of each content section. -/
structure Dom where
  navLinks : List String
  sections : List String
deriving DecidableEq

/-- Observable navigation state: which nav links and which content sections
currently carry the `active` class. -/
structure NavState where
  activeLinks : List String
  activeSections : List String
deriving DecidableEq

/-- Embeds the click handler of `script.js` lines 8-24: remove `active`
from every link and every section, add `active` to the clicked link, and
add `active` to the section whose id matches the link's `data-section`
attribute only when such a section exists (`getElementById` non-null).
The resulting state does not depend on the previous state. -/
def navSelect (dom : Dom) (_st : NavState) (link : String) : NavState :=
  { activeLinks := [link]
  , activeSections := if dom.sections.contains link then [link] else [] }

/-- Embeds the initialization of `script.js` lines 27-33: the dashboard
link and dashboard section receive `active` when both exist. -/
def navInit (dom : Dom) : NavState :=
  if dom.navLinks.contains "dashboard" && dom.sections.contains "dashboard" then
    { activeLinks := ["dashboard"], activeSections := ["dashboard"] }
  else
    { activeLinks := [], activeSections := [] }

/-- A sequence of nav-link clicks, applied in order. -/
def runSelects (dom : Dom) (st : NavState) (clicks : List String) : NavState :=
  clicks.foldl (navSelect dom) st

/-- A concrete page: a `dashboard` link and section, plus an `ec2` nav link
whose `data-section` has no matching content section. -/
def demoDom : Dom :=
  { navLinks := ["dashboard", "ec2"], sections := ["dashboard"] }

/-! ## Provisioning workflow -/

/-- The workflow states named by the specification for a deploy attempt. -/
inductive WorkflowState
  | Idle
  | Confirming
  | Running
  | Completed
  | Cancelled
deriving DecidableEq

/-- The ordered step log shown by `showDeploymentProgress`
(`script.js` lines 120-132). -/
def deploymentSteps : List String :=
  [ "Creating VPC"
  , "Creating subnets"
  , "Creating Internet Gateway"
  , "Creating NAT Gateways"
  , "Creating security groups"
  , "Launching EC2 instances"
  , "Creating load balancers"
  , "Creating RDS database"
  , "Configuring Route 53" ]

/-- Outcome of one deploy attempt: the terminal state reached and the
ordered list of steps that were executed (reported to the presentation
collaborator). -/
structure DeployOutcome where
  finalState : WorkflowState
  executedSteps : List String
deriving DecidableEq

/-- Embeds `deployArchitecture` (`script.js` lines 98-117): the
confirmation collaborator (`confirm`) answers `granted`; on grant the
whole ordered step sequence runs (`showDeploymentProgress`) and the run
completes; on denial nothing at all happens and the attempt is
cancelled. -/
def deployArchitecture (granted : Bool) : DeployOutcome :=
  if granted then ⟨.Completed, deploymentSteps⟩ else ⟨.Cancelled, []⟩

/-! ## Configuration data model

The artifact literal of `exportArchitecture` (`script.js` lines 136-194)
fixes the export schema; the specification's ConfigModel is the same data
with the closed-vocabulary string fields (`type` of a subnet, `type` and
`scheme` of a load balancer, `tier` of an instance) replaced by enumerated
tags. -/

/-- One inbound security-group rule: `(port, protocol, source)`, where
`source` is a CIDR string or the name of another security group
(`script.js` lines 150-165). -/
structure InboundRule where
  port : Nat
  protocol : String
  source : String
deriving DecidableEq

/-- A named security group with its ordered inbound rules. -/
structure SecurityGroup where
  name : String
  inbound : List InboundRule
deriving DecidableEq

/-- The VPC record of the artifact (`script.js` lines 137-141). -/
structure Vpc where
  cidr : String
  name : String
  region : String
deriving DecidableEq

/-- The database record of the artifact (`script.js` lines 179-186).
The JSON key of `instClass` is `"instanceClass"`. -/
structure Rds where
  identifier : String
  engine : String
  version : String
  instClass : String
  multiAZ : Bool
  storage : Nat
deriving DecidableEq

/-- One DNS record of the hosted zone (`script.js` lines 190-191). -/
structure DnsRecord where
  name : String
  type : String
  value : String
deriving DecidableEq

/-- The hosted-zone record of the artifact (`script.js` lines 187-193). -/
structure Route53 where
  domain : String
  records : List DnsRecord
deriving DecidableEq

/-- A subnet as it appears in the artifact (`script.js` lines 143-145):
the visibility is the raw string `"public"` or `"private"`. -/
structure SubnetArtifact where
  name : String
  cidr : String
  az : String
  type : String
deriving DecidableEq

/-- A load balancer as it appears in the artifact (`script.js`
lines 169-170): kind and scheme are raw strings. -/
structure LoadBalancerArtifact where
  name : String
  type : String
  scheme : String
deriving DecidableEq

/-- An EC2 instance as it appears in the artifact (`script.js`
lines 173-177): the tier is a raw string. -/
structure InstanceArtifact where
  name : String
  type : String
  tier : String
deriving DecidableEq

/-- The canonical export artifact: exactly the field set and nesting of
the export schema (`vpc`, `subnets`, `securityGroups`, `loadBalancers`,
`ec2Instances`, `rds`, `route53`), as built by `exportArchitecture`. -/
structure Artifact where
  vpc : Vpc
  subnets : List SubnetArtifact
  securityGroups : List SecurityGroup
  loadBalancers : List LoadBalancerArtifact
  ec2Instances : List InstanceArtifact
  rds : Rds
  route53 : Route53
deriving DecidableEq

/-- Subnet visibility tag of the data model: `public` or `private`. -/
inductive Visibility
  | pub
  | priv
deriving DecidableEq

/-- Instance tier membership of the data model: `web` or `app`. -/
inductive Tier
  | web
  | app
deriving DecidableEq

/-- Load-balancer kind of the data model. -/
inductive LbKind
  | application
  | network
  | classic
deriving DecidableEq

/-- Load-balancer exposure of the data model. -/
inductive LbScheme
  | internetFacing
  | internal
deriving DecidableEq

/-- A subnet of the data model: visibility is an enumerated tag. -/
structure Subnet where
  name : String
  cidr : String
  az : String
  visibility : Visibility
deriving DecidableEq

/-- A load balancer of the data model: kind and exposure are tags. -/
structure LoadBalancer where
  name : String
  kind : LbKind
  exposure : LbScheme
deriving DecidableEq

/-- An instance of the data model: machine size plus a tier tag. -/
structure Instance where
  name : String
  sizeClass : String
  tier : Tier
deriving DecidableEq

/-- The in-memory declarative description of the three-tier architecture. -/
structure ConfigModel where
  vpc : Vpc
  subnets : List Subnet
  securityGroups : List SecurityGroup
  loadBalancers : List LoadBalancer
  instances : List Instance
  database : Rds
  dnsZone : Route53
deriving DecidableEq

/-- Serialization of a visibility tag into its artifact string. -/
def Visibility.toTag : Visibility → String
  | .pub => "public"
  | .priv => "private"

/-- Serialization of a tier tag into its artifact string. -/
def Tier.toTag : Tier → String
  | .web => "web"
  | .app => "app"

/-- Serialization of a load-balancer kind into its artifact string. -/
def LbKind.toTag : LbKind → String
  | .application => "application"
  | .network => "network"
  | .classic => "classic"

/-- Serialization of a load-balancer exposure into its artifact string. -/
def LbScheme.toTag : LbScheme → String
  | .internetFacing => "internet-facing"
  | .internal => "internal"

/-- Modelled from the spec (section 4.1): the canonical serialization of a
ConfigModel.  The source ships only the already-serialized artifact
literal, so the only content of this map is the fixed field order of the
export schema and the tag encodings. -/
def ConfigModel.toCanonicalArtifact (m : ConfigModel) : Artifact :=
  { vpc := m.vpc
  , subnets := m.subnets.map fun s => ⟨s.name, s.cidr, s.az, s.visibility.toTag⟩
  , securityGroups := m.securityGroups
  , loadBalancers := m.loadBalancers.map fun lb => ⟨lb.name, lb.kind.toTag, lb.exposure.toTag⟩
  , ec2Instances := m.instances.map fun i => ⟨i.name, i.sizeClass, i.tier.toTag⟩
  , rds := m.database
  , route53 := m.dnsZone }

/-! ## CIDR arithmetic

Modelled from the spec (section 3): CIDR strings must be valid IPv4
prefixes, subnet blocks must sit inside the VPC block and must not overlap
each other.  The parser works on the character list of the string. -/

/-- Split a character list at every occurrence of `sep` (the separators are
dropped; empty pieces are kept). -/
def splitOnChar (sep : Char) (l : List Char) : List (List Char) :=
  match l with
  | [] => [[]]
  | c :: rest =>
    let r := splitOnChar sep rest
    if c = sep then [] :: r
    else
      match r with
      | [] => [[c]]
      | h :: t => (c :: h) :: t

/-- Read a nonempty all-digit character list as a decimal number. -/
def digitsToNat? (l : List Char) : Option Nat :=
  if l = [] then none
  else if l.all (fun c => c.isDigit) then
    some (l.foldl (fun n c => n * 10 + (c.toNat - 48)) 0)
  else none

/-- A parsed IPv4 CIDR block: 32-bit address plus mask length. -/
structure Cidr where
  addr : Nat
  maskBits : Nat
deriving DecidableEq

/-- Modelled from the spec: parse an IPv4 CIDR string `"a.b.c.d/n"` with
octets at most 255 and mask length at most 32. -/
def parseCidr (s : String) : Option Cidr :=
  match splitOnChar '/' s.toList with
  | [ip, bits] =>
    match splitOnChar '.' ip with
    | [a, b, c, d] =>
      match digitsToNat? a, digitsToNat? b, digitsToNat? c, digitsToNat? d, digitsToNat? bits with
      | some a', some b', some c', some d', some n =>
        if a' ≤ 255 ∧ b' ≤ 255 ∧ c' ≤ 255 ∧ d' ≤ 255 ∧ n ≤ 32 then
          some ⟨((a' * 256 + b') * 256 + c') * 256 + d', n⟩
        else none
      | _, _, _, _, _ => none
    | _ => none
  | _ => none

/-- Number of addresses covered by a CIDR block. -/
def Cidr.blockSize (c : Cidr) : Nat := 2 ^ (32 - c.maskBits)

/-- First address of the block: the address with its host bits cleared. -/
def Cidr.base (c : Cidr) : Nat := c.addr - c.addr % c.blockSize

/-- Does the block `inner` sit entirely inside the block `outer`? -/
def cidrInside (inner outer : Cidr) : Bool :=
  outer.base ≤ inner.base && inner.base + inner.blockSize ≤ outer.base + outer.blockSize

/-- Do two CIDR blocks share at least one address? -/
def cidrOverlaps (x y : Cidr) : Bool :=
  max x.base y.base < min (x.base + x.blockSize) (y.base + y.blockSize)

/-! ## Validation

Modelled from the spec (section 4.1): `validate` is absent from the
shipped script, so every check below follows the specification's wording.
The result is the ordered list of violations; success is the empty list. -/

/-- The violation kinds of the specification (section 4.1).  The cycle
violation carries the names of the groups involved in a reference cycle
(the residual nodes of the elimination run). -/
inductive Violation
  | InvalidCidr (entity : String)
  | OverlappingCidr (entity : String)
  | InsufficientAzCoverage
  | DanglingSecurityGroupReference (entity : String)
  | SecurityGroupCycle (members : List String)
  | MissingTierSecurityGroup (tier : String)
  | MissingLoadBalancerForTier (tier : String)
deriving DecidableEq

/-- The names of the security groups of a model, in declaration order. -/
def sgNames (sgs : List SecurityGroup) : List String := sgs.map (·.name)

/-- The "allows traffic from" reference graph: an edge `a → b` exists when
some inbound rule of the group named `a` names the group `b` as its
source.  Both endpoints are group names by construction. -/
def sgEdge (sgs : List SecurityGroup) (a b : String) : Bool :=
  (sgNames sgs).contains a && (sgNames sgs).contains b &&
    sgs.any fun g => g.name == a && g.inbound.any fun r => r.source == b

/-- One elimination round of the cycle check (Kahn's algorithm counting
residual in-degree, as the spec suggests): keep exactly the nodes that
still have an incoming edge from a remaining node. -/
def pruneStep (e : String → String → Bool) (rem : List String) : List String :=
  rem.filter fun v => rem.any fun u => e u v

/-- Iterate the elimination round a fixed number of times. -/
def pruneIter (e : String → String → Bool) : Nat → List String → List String
  | 0, rem => rem
  | n + 1, rem => pruneIter e n (pruneStep e rem)

/-- The residual nodes after as many elimination rounds as there are
security groups; nonempty exactly when the reference graph has a cycle. -/
def kahnResidual (sgs : List SecurityGroup) : List String :=
  pruneIter (sgEdge sgs) (sgNames sgs).length (sgNames sgs)

/-- A closed walk in an edge relation: some node `x` reaches itself along
a nonempty chain of edges.  This is the mathematical reading of "the
security groups form a reference cycle". -/
def HasCycle (e : String → String → Bool) : Prop :=
  ∃ (x : String) (p : List String), List.Chain (fun a b => e a b = true) x (p ++ [x])

/-- Modelled from the spec: the VPC CIDR must parse. -/
def vpcCidrViolations (m : ConfigModel) : List Violation :=
  match parseCidr m.vpc.cidr with
  | some _ => []
  | none => [.InvalidCidr m.vpc.name]

/-- Modelled from the spec: each subnet CIDR must parse and must sit
inside the VPC block (reported as `InvalidCidr` for the subnet). -/
def subnetCidrViolations (m : ConfigModel) : List Violation :=
  m.subnets.filterMap fun s =>
    match parseCidr s.cidr with
    | none => some (.InvalidCidr s.name)
    | some sc =>
      match parseCidr m.vpc.cidr with
      | some vc => if cidrInside sc vc then none else some (.InvalidCidr s.name)
      | none => none

/-- Overlap violations of one subnet against the subnets after it. -/
def overlapWith (s : Subnet) (rest : List Subnet) : List Violation :=
  rest.filterMap fun t =>
    match parseCidr s.cidr, parseCidr t.cidr with
    | some a, some b => if cidrOverlaps a b then some (.OverlappingCidr t.name) else none
    | _, _ => none

/-- Modelled from the spec: no two sibling subnets may overlap. -/
def overlapViolations : List Subnet → List Violation
  | [] => []
  | s :: rest => overlapWith s rest ++ overlapViolations rest

/-- Modelled from the spec: the subnets must span at least 3 distinct
availability zones. -/
def azViolations (m : ConfigModel) : List Violation :=
  if 3 ≤ (m.subnets.map (·.az)).dedup.length then []
  else [.InsufficientAzCoverage]

/-- Modelled from the spec: a rule source that is not a CIDR must name a
security group of the same model. -/
def danglingViolations (m : ConfigModel) : List Violation :=
  m.securityGroups.flatMap fun g =>
    g.inbound.filterMap fun r =>
      if (parseCidr r.source).isSome then none
      else if (sgNames m.securityGroups).contains r.source then none
      else some (.DanglingSecurityGroupReference g.name)

/-- Modelled from the spec: the reference graph must be acyclic; a
nonempty residual after the elimination run is reported with its member
names. -/
def cycleViolations (m : ConfigModel) : List Violation :=
  match kahnResidual m.securityGroups with
  | [] => []
  | res => [.SecurityGroupCycle res]

/-- Modelled from the spec: every instance tier must have a corresponding
security group; the correspondence is the naming convention of the default
model (`"<tier>-tier-sg"`). -/
def tierSgViolations (m : ConfigModel) : List Violation :=
  ((m.instances.map fun i => i.tier.toTag).dedup).filterMap fun t =>
    if (sgNames m.securityGroups).contains (t ++ "-tier-sg") then none
    else some (.MissingTierSecurityGroup t)

/-- Modelled from the spec: the internet-facing tier (web) must have an
internet-facing load balancer when it has instances. -/
def lbViolations (m : ConfigModel) : List Violation :=
  if (m.instances.any fun i => decide (i.tier = Tier.web)) &&
     !(m.loadBalancers.any fun lb => decide (lb.exposure = LbScheme.internetFacing)) then
    [.MissingLoadBalancerForTier "web"]
  else []

/-- Modelled from the spec (section 4.1): the full validation pass; every
invariant of section 3 is checked and the violations are returned in a
fixed order.  Validation reads the model and nothing else. -/
def validateViolations (m : ConfigModel) : List Violation :=
  vpcCidrViolations m ++ subnetCidrViolations m ++ overlapViolations m.subnets ++
    azViolations m ++ danglingViolations m ++ cycleViolations m ++
    tierSgViolations m ++ lbViolations m

/-! ## The shipped artifact and the default model -/

/-- The hard-coded architecture description built by `exportArchitecture`
(`script.js` lines 136-194), field for field. -/
def architectureConfig : Artifact :=
  { vpc := ⟨"10.0.0.0/16", "production-vpc", "us-east-1"⟩
  , subnets :=
      [ ⟨"public-subnet-1a", "10.0.1.0/24", "us-east-1a", "public"⟩
      , ⟨"private-subnet-1b", "10.0.2.0/24", "us-east-1b", "private"⟩
      , ⟨"private-subnet-1c", "10.0.3.0/24", "us-east-1c", "private"⟩ ]
  , securityGroups :=
      [ ⟨"web-tier-sg", [⟨80, "tcp", "0.0.0.0/0"⟩, ⟨443, "tcp", "0.0.0.0/0"⟩]⟩
      , ⟨"app-tier-sg", [⟨8080, "tcp", "web-tier-sg"⟩]⟩
      , ⟨"db-tier-sg", [⟨3306, "tcp", "app-tier-sg"⟩]⟩ ]
  , loadBalancers :=
      [ ⟨"web-tier-alb", "application", "internet-facing"⟩
      , ⟨"app-tier-alb", "application", "internal"⟩ ]
  , ec2Instances :=
      [ ⟨"web-server-01", "t3.medium", "web"⟩
      , ⟨"web-server-02", "t3.medium", "web"⟩
      , ⟨"app-server-01", "t3.large", "app"⟩
      , ⟨"app-server-02", "t3.large", "app"⟩
      , ⟨"app-server-03", "t3.large", "app"⟩ ]
  , rds := ⟨"prod-db-01", "mysql", "8.0.32", "db.r5.large", true, 100⟩
  , route53 :=
      ⟨"example.com",
        [ ⟨"www", "CNAME", "web-tier-alb"⟩
        , ⟨"api", "CNAME", "app-tier-alb"⟩ ]⟩ }

/-- The default three-tier ConfigModel: the model whose canonical artifact
is exactly `architectureConfig` (the string tags of the artifact replaced
by their enumerated values). -/
def defaultModel : ConfigModel :=
  { vpc := ⟨"10.0.0.0/16", "production-vpc", "us-east-1"⟩
  , subnets :=
      [ ⟨"public-subnet-1a", "10.0.1.0/24", "us-east-1a", .pub⟩
      , ⟨"private-subnet-1b", "10.0.2.0/24", "us-east-1b", .priv⟩
      , ⟨"private-subnet-1c", "10.0.3.0/24", "us-east-1c", .priv⟩ ]
  , securityGroups :=
      [ ⟨"web-tier-sg", [⟨80, "tcp", "0.0.0.0/0"⟩, ⟨443, "tcp", "0.0.0.0/0"⟩]⟩
      , ⟨"app-tier-sg", [⟨8080, "tcp", "web-tier-sg"⟩]⟩
      , ⟨"db-tier-sg", [⟨3306, "tcp", "app-tier-sg"⟩]⟩ ]
  , loadBalancers :=
      [ ⟨"web-tier-alb", .application, .internetFacing⟩
      , ⟨"app-tier-alb", .application, .internal⟩ ]
  , instances :=
      [ ⟨"web-server-01", "t3.medium", .web⟩
      , ⟨"web-server-02", "t3.medium", .web⟩
      , ⟨"app-server-01", "t3.large", .app⟩
      , ⟨"app-server-02", "t3.large", .app⟩
      , ⟨"app-server-03", "t3.large", .app⟩ ]
  , database := ⟨"prod-db-01", "mysql", "8.0.32", "db.r5.large", true, 100⟩
  , dnsZone :=
      ⟨"example.com",
        [ ⟨"www", "CNAME", "web-tier-alb"⟩
        , ⟨"api", "CNAME", "app-tier-alb"⟩ ]⟩ }

/-! ## Serialization and export -/

/-- `n` spaces. -/
def sp (n : Nat) : String := String.mk (List.replicate n ' ')

/-- JSON string escaping for the characters that can occur in the model. -/
def jsonEscape (s : String) : String :=
  String.join (s.toList.map fun c =>
    if c = '"' then "\\\""
    else if c = '\\' then "\\\\"
    else if c = '\n' then "\\n"
    else String.singleton c)

/-- A JSON string literal. -/
def jstr (s : String) : String := "\"" ++ jsonEscape s ++ "\""

/-- A JSON number (all numbers of the artifact are naturals). -/
def jnat (n : Nat) : String := toString n

/-- A JSON boolean. -/
def jbool (b : Bool) : String := if b then "true" else "false"

/-- A JSON object whose opening brace sits at indentation `ind`, rendered
the way `JSON.stringify(_, null, 2)` renders it: each field on its own
line at `ind + 2`, the closing brace back at `ind`. -/
def renderObjAt (ind : Nat) (fields : List (String × String)) : String :=
  "\x7b\n" ++
    String.intercalate ",\n" (fields.map fun f => sp (ind + 2) ++ jstr f.1 ++ ": " ++ f.2) ++
    "\n" ++ sp ind ++ "\x7d"

/-- A JSON array at indentation `ind`, rendered the way
`JSON.stringify(_, null, 2)` renders it. -/
def renderArrAt (ind : Nat) (elems : List String) : String :=
  if elems = [] then "[]"
  else
    "[\n" ++ String.intercalate ",\n" (elems.map fun v => sp (ind + 2) ++ v) ++
      "\n" ++ sp ind ++ "]"

/-- The serialized artifact: the byte string `JSON.stringify(config, null, 2)`
produces in `exportArchitecture` (`script.js` line 196), with the fixed key
order of the export schema. -/
def artifactToJson (a : Artifact) : String :=
  renderObjAt 0
    [ ("vpc", renderObjAt 2
        [ ("cidr", jstr a.vpc.cidr)
        , ("name", jstr a.vpc.name)
        , ("region", jstr a.vpc.region) ])
    , ("subnets", renderArrAt 2 (a.subnets.map fun s => renderObjAt 4
        [ ("name", jstr s.name)
        , ("cidr", jstr s.cidr)
        , ("az", jstr s.az)
        , ("type", jstr s.type) ]))
    , ("securityGroups", renderArrAt 2 (a.securityGroups.map fun g => renderObjAt 4
        [ ("name", jstr g.name)
        , ("inbound", renderArrAt 6 (g.inbound.map fun r => renderObjAt 8
            [ ("port", jnat r.port)
            , ("protocol", jstr r.protocol)
            , ("source", jstr r.source) ])) ]))
    , ("loadBalancers", renderArrAt 2 (a.loadBalancers.map fun lb => renderObjAt 4
        [ ("name", jstr lb.name)
        , ("type", jstr lb.type)
        , ("scheme", jstr lb.scheme) ]))
    , ("ec2Instances", renderArrAt 2 (a.ec2Instances.map fun i => renderObjAt 4
        [ ("name", jstr i.name)
        , ("type", jstr i.type)
        , ("tier", jstr i.tier) ]))
    , ("rds", renderObjAt 2
        [ ("identifier", jstr a.rds.identifier)
        , ("engine", jstr a.rds.engine)
        , ("version", jstr a.rds.version)
        , ("instanceClass", jstr a.rds.instClass)
        , ("multiAZ", jbool a.rds.multiAZ)
        , ("storage", jnat a.rds.storage) ])
    , ("route53", renderObjAt 2
        [ ("domain", jstr a.route53.domain)
        , ("records", renderArrAt 4 (a.route53.records.map fun r => renderObjAt 6
            [ ("name", jstr r.name)
            , ("type", jstr r.type)
            , ("value", jstr r.value) ])) ]) ]

/-- What the persistence collaborator receives from an export: the
serialized artifact and the suggested download filename. -/
structure ExportResult where
  payload : String
  filename : String
deriving DecidableEq

/-- The export service over an arbitrary model (spec section 4.4):
serialize canonically, then hand the payload to the persistence
collaborator under the fixed suggested filename of `script.js`
line 201. -/
def exportModel (m : ConfigModel) : ExportResult :=
  ⟨artifactToJson m.toCanonicalArtifact, "aws-architecture-config.json"⟩

/-- Embeds `exportArchitecture` (`script.js` lines 135-205): the shipped
function always serializes the hard-coded configuration. -/
def exportArchitecture : ExportResult :=
  ⟨artifactToJson architectureConfig, "aws-architecture-config.json"⟩

/-- The shipped export function is the export service applied to the
default model. -/
lemma exportArchitecture_eq : exportArchitecture = exportModel defaultModel := by
  have h : defaultModel.toCanonicalArtifact = architectureConfig := by decide
  simp [exportArchitecture, exportModel, h]

/-! ## Deserialization

Modelled from the spec (section 4.1): `fromArtifact` is absent from the
shipped script; the specification requires it to be the inverse of
`toCanonicalArtifact`.  Decoding fails with a `ParseError` on any tag
outside the closed vocabulary. -/

/-- Artifact deserialization failure, tagged with the offending string. -/
inductive ParseError
  | badSubnetType (s : String)
  | badLbType (s : String)
  | badLbScheme (s : String)
  | badTier (s : String)
deriving DecidableEq

/-- Decode a subnet visibility tag. -/
def Visibility.ofTag (s : String) : Except ParseError Visibility :=
  if s = "public" then .ok .pub
  else if s = "private" then .ok .priv
  else .error (.badSubnetType s)

/-- Decode an instance tier tag. -/
def Tier.ofTag (s : String) : Except ParseError Tier :=
  if s = "web" then .ok .web
  else if s = "app" then .ok .app
  else .error (.badTier s)

/-- Decode a load-balancer kind tag. -/
def LbKind.ofTag (s : String) : Except ParseError LbKind :=
  if s = "application" then .ok .application
  else if s = "network" then .ok .network
  else if s = "classic" then .ok .classic
  else .error (.badLbType s)

/-- Decode a load-balancer scheme tag. -/
def LbScheme.ofTag (s : String) : Except ParseError LbScheme :=
  if s = "internet-facing" then .ok .internetFacing
  else if s = "internal" then .ok .internal
  else .error (.badLbScheme s)

/-- Decode one artifact subnet. -/
def decodeSubnet (s : SubnetArtifact) : Except ParseError Subnet :=
  match Visibility.ofTag s.type with
  | .ok v => .ok ⟨s.name, s.cidr, s.az, v⟩
  | .error e => .error e

/-- Decode one artifact load balancer. -/
def decodeLb (lb : LoadBalancerArtifact) : Except ParseError LoadBalancer :=
  match LbKind.ofTag lb.type, LbScheme.ofTag lb.scheme with
  | .ok k, .ok s => .ok ⟨lb.name, k, s⟩
  | .error e, _ => .error e
  | _, .error e => .error e

/-- Decode one artifact instance. -/
def decodeInstance (i : InstanceArtifact) : Except ParseError Instance :=
  match Tier.ofTag i.tier with
  | .ok t => .ok ⟨i.name, i.type, t⟩
  | .error e => .error e

/-- Decode a whole list, stopping at the first failure. -/
def decodeAll (f : α → Except ParseError β) : List α → Except ParseError (List β)
  | [] => .ok []
  | a :: as =>
    match f a, decodeAll f as with
    | .ok b, .ok bs => .ok (b :: bs)
    | .error e, _ => .error e
    | .ok _, .error e => .error e

/-- Modelled from the spec (section 4.1): rebuild a ConfigModel from a
canonical artifact, reporting the first tag that fails to decode. -/
def ConfigModel.fromArtifact (a : Artifact) : Except ParseError ConfigModel :=
  match decodeAll decodeSubnet a.subnets,
        decodeAll decodeLb a.loadBalancers,
        decodeAll decodeInstance a.ec2Instances with
  | .ok subs, .ok lbs, .ok insts =>
    .ok ⟨a.vpc, subs, a.securityGroups, lbs, insts, a.rds, a.route53⟩
  | .error e, _, _ => .error e
  | _, .error e, _ => .error e
  | _, _, .error e => .error e

/-- Decoding a list of encodings recovers the list. -/
lemma decodeAll_map_ok {α β : Type} (f : α → Except ParseError β) (g : β → α)
    (h : ∀ x : β, f (g x) = .ok x) (l : List β) : decodeAll f (l.map g) = .ok l := by
  induction l with
  | nil => rfl
  | cons b bs ih => simp [decodeAll, h, ih]

/-! ## Facts about the cycle check -/

/-- Along a closed chain, every node has a predecessor drawn from the
start node and the interior nodes. -/
lemma chain_pred_aux {R : String → String → Prop} :
    ∀ (p : List String) (y x : String), List.Chain R y (p ++ [x]) →
      ∀ v ∈ p ++ [x], ∃ u ∈ y :: p, R u v := by
  intro p
  induction p with
  | nil =>
    intro y x h v hv
    simp only [List.nil_append] at h hv
    rw [List.mem_singleton] at hv
    rw [List.chain_cons] at h
    subst hv
    exact ⟨y, List.mem_cons_self y _, h.1⟩
  | cons a p' ih =>
    intro y x h v hv
    rw [List.cons_append, List.chain_cons] at h
    obtain ⟨hya, hrest⟩ := h
    rcases List.mem_cons.mp hv with hva | hv' 
    · exact ⟨y, List.mem_cons_self y _, by rw [hva]; exact hya⟩
    · obtain ⟨u, hu, hr⟩ := ih a x hrest v hv' 
      exact ⟨u, List.mem_cons_of_mem y hu, hr⟩

/-- On a closed walk `x :: p`, every node has a predecessor on the walk. -/
lemma chain_pred {R : String → String → Prop} {x : String} {p : List String}
    (h : List.Chain R x (p ++ [x])) :
    ∀ v ∈ x :: p, ∃ u ∈ x :: p, R u v := by
  intro v hv
  have hv' : v ∈ p ++ [x] := by
    rcases List.mem_cons.mp hv with h1 | h2
    · exact List.mem_append_right _ (by simp [h1])
    · exact List.mem_append_left _ h2
  exact chain_pred_aux p x x h v hv' 

/-- A node with a surviving predecessor survives one elimination round. -/
lemma mem_pruneStep {e : String → String → Bool} {rem : List String} {v : String}
    (hv : v ∈ rem) (hpred : ∃ u ∈ rem, e u v = true) : v ∈ pruneStep e rem := by
  unfold pruneStep
  rw [List.mem_filter]
  refine ⟨hv, ?_⟩
  rw [List.any_eq_true]
  exact hpred

/-- A predecessor-closed set of nodes survives every elimination round. -/
lemma subset_pruneIter {e : String → String → Bool} {S : List String}
    (hpred : ∀ v ∈ S, ∃ u ∈ S, e u v = true) :
    ∀ (k : Nat) (rem : List String), (∀ v ∈ S, v ∈ rem) →
      ∀ v ∈ S, v ∈ pruneIter e k rem := by
  intro k
  induction k with
  | zero => intro rem h v hv; exact h v hv
  | succ n ih =>
    intro rem h v hv
    simp only [pruneIter]
    refine ih (pruneStep e rem) ?_ v hv
    intro w hw
    refine mem_pruneStep (h w hw) ?_
    obtain ⟨u, hu, he⟩ := hpred w hw
    exact ⟨u, h u hu, he⟩

/-- The target of a reference edge is a group name. -/
lemma sgEdge_mem_right {sgs : List SecurityGroup} {a b : String}
    (h : sgEdge sgs a b = true) : b ∈ sgNames sgs := by
  simp only [sgEdge, Bool.and_eq_true] at h
  have := h.1.2
  simpa [List.contains_iff_exists_mem_beq, beq_iff_eq] using this

/-- A reference cycle leaves the elimination run with a nonempty residual. -/
lemma residual_ne_nil_of_cycle {sgs : List SecurityGroup}
    (h : HasCycle (sgEdge sgs)) : kahnResidual sgs ≠ [] := by
  obtain ⟨x, p, hchain⟩ := h
  have hpred := chain_pred hchain
  have hmem : ∀ v ∈ x :: p, v ∈ sgNames sgs := by
    intro v hv
    obtain ⟨u, _, he⟩ := hpred v hv
    exact sgEdge_mem_right he
  have hx : x ∈ kahnResidual sgs := by
    unfold kahnResidual
    exact subset_pruneIter hpred _ _ hmem x (List.mem_cons_self x p)
  intro hnil
  rw [hnil] at hx
  exact List.not_mem_nil x hx

/-- One elimination round never adds nodes. -/
lemma pruneStep_sublist (e : String → String → Bool) (rem : List String) :
    List.Sublist (pruneStep e rem) rem :=
  List.filter_sublist rem

/-- An elimination round that preserves the node count is the identity. -/
lemma pruneStep_eq_of_len (e : String → String → Bool) (rem : List String)
    (h : (pruneStep e rem).length = rem.length) : pruneStep e rem = rem :=
  (pruneStep_sublist e rem).eq_of_length h

/-- Iterating from a fixpoint stays at the fixpoint. -/
lemma pruneIter_fixed {e : String → String → Bool} {rem : List String}
    (h : pruneStep e rem = rem) : ∀ n, pruneIter e n rem = rem := by
  intro n
  induction n with
  | zero => rfl
  | succ k ih => simp only [pruneIter, h]; exact ih

/-- After as many rounds as there are nodes, the elimination has reached a
fixpoint. -/
lemma pruneStep_fix_of_le {e : String → String → Bool} :
    ∀ (n : Nat) (rem : List String), rem.length ≤ n →
      pruneStep e (pruneIter e n rem) = pruneIter e n rem := by
  intro n
  induction n with
  | zero =>
    intro rem h
    have hrem : rem = [] := List.eq_nil_of_length_eq_zero (Nat.le_zero.mp h)
    subst hrem
    rfl
  | succ n ih =>
    intro rem h
    by_cases hfix : pruneStep e rem = rem
    · rw [pruneIter_fixed hfix, hfix]
    · have hle := (pruneStep_sublist e rem).length_le
      have hlt : (pruneStep e rem).length < rem.length := by
        rcases Nat.lt_or_ge (pruneStep e rem).length rem.length with h1 | h2
        · exact h1
        · exact absurd (pruneStep_eq_of_len e rem (Nat.le_antisymm hle h2)) hfix
      have hn : (pruneStep e rem).length ≤ n := Nat.lt_succ_iff.mp (Nat.lt_of_lt_of_le hlt h)
      simpa only [pruneIter] using ih (pruneStep e rem) hn

/-- Every residual node keeps a predecessor among the residual nodes. -/
lemma residual_pred {sgs : List SecurityGroup} :
    ∀ v ∈ kahnResidual sgs, ∃ u ∈ kahnResidual sgs, sgEdge sgs u v = true := by
  intro v hv
  have hfix : pruneStep (sgEdge sgs) (kahnResidual sgs) = kahnResidual sgs := by
    unfold kahnResidual
    exact pruneStep_fix_of_le (sgNames sgs).length (sgNames sgs) (Nat.le_refl _)
  rw [← hfix] at hv
  unfold pruneStep at hv
  rw [List.mem_filter] at hv
  obtain ⟨_, hv2⟩ := hv
  rw [List.any_eq_true] at hv2
  exact hv2

/-- A nonempty list of names has an element of maximal rank. -/
lemma exists_max_rank (rk : String → Nat) :
    ∀ (S : List String), S ≠ [] → ∃ v ∈ S, ∀ u ∈ S, rk u ≤ rk v := by
  intro S
  induction S with
  | nil => intro h; exact absurd rfl h
  | cons a S' ih =>
    intro _
    by_cases h' : S' = []
    · subst h'
      exact ⟨a, List.mem_cons_self a _, by intro u hu; simp at hu; simp [hu]⟩
    · obtain ⟨v, hv, hmax⟩ := ih h' 
      by_cases hcmp : rk v ≤ rk a
      · refine ⟨a, List.mem_cons_self a _, ?_⟩
        intro u hu
        rcases List.mem_cons.mp hu with h1 | h2
        · rw [h1]
        · exact Nat.le_trans (hmax u h2) hcmp
      · refine ⟨v, List.mem_cons_of_mem a hv, ?_⟩
        intro u hu
        rcases List.mem_cons.mp hu with h1 | h2
        · rw [h1]; exact Nat.le_of_lt (Nat.lt_of_not_le hcmp)
        · exact hmax u h2

/-- If some rank strictly decreases along every reference edge, the
elimination run removes every node. -/
lemma residual_nil_of_rank {sgs : List SecurityGroup} (rk : String → Nat)
    (hrk : ∀ a b, sgEdge sgs a b = true → rk b < rk a) :
    kahnResidual sgs = [] := by
  by_contra hne
  obtain ⟨v, hv, hmax⟩ := exists_max_rank rk (kahnResidual sgs) hne
  obtain ⟨u, hu, he⟩ := residual_pred v hv
  exact Nat.lt_irrefl _ (Nat.lt_of_lt_of_le (hrk u v he) (hmax u hu))

/-- The VPC CIDR check emits no cycle violation. -/
lemma cycle_not_mem_vpcCidr {m : ConfigModel} {res : List String} :
    Violation.SecurityGroupCycle res ∉ vpcCidrViolations m := by
  unfold vpcCidrViolations
  split <;> simp

/-- The subnet CIDR check emits no cycle violation. -/
lemma cycle_not_mem_subnetCidr {m : ConfigModel} {res : List String} :
    Violation.SecurityGroupCycle res ∉ subnetCidrViolations m := by
  intro h
  rw [subnetCidrViolations, List.mem_filterMap] at h
  obtain ⟨a, _, ha⟩ := h
  split at ha
  · simp at ha
  · split at ha
    · split at ha <;> simp at ha
    · simp at ha

/-- The pairwise overlap check emits no cycle violation. -/
lemma cycle_not_mem_overlapWith {s : Subnet} {rest : List Subnet} {res : List String} :
    Violation.SecurityGroupCycle res ∉ overlapWith s rest := by
  intro h
  rw [overlapWith, List.mem_filterMap] at h
  obtain ⟨a, _, ha⟩ := h
  split at ha
  · split at ha <;> simp at ha
  · simp at ha

/-- The overlap check emits no cycle violation. -/
lemma cycle_not_mem_overlap {subs : List Subnet} {res : List String} :
    Violation.SecurityGroupCycle res ∉ overlapViolations subs := by
  induction subs with
  | nil => simp [overlapViolations]
  | cons s rest ih =>
    intro h
    rw [overlapViolations, List.mem_append] at h
    rcases h with h | h
    · exact cycle_not_mem_overlapWith h
    · exact ih h

/-- The availability-zone check emits no cycle violation. -/
lemma cycle_not_mem_az {m : ConfigModel} {res : List String} :
    Violation.SecurityGroupCycle res ∉ azViolations m := by
  unfold azViolations
  split <;> simp

/-- The dangling-reference check emits no cycle violation. -/
lemma cycle_not_mem_dangling {m : ConfigModel} {res : List String} :
    Violation.SecurityGroupCycle res ∉ danglingViolations m := by
  intro h
  rw [danglingViolations, List.mem_flatMap] at h
  obtain ⟨g, _, hg⟩ := h
  rw [List.mem_filterMap] at hg
  obtain ⟨r, _, hr⟩ := hg
  split at hr
  · simp at hr
  · split at hr <;> simp at hr

/-- The tier security-group check emits no cycle violation. -/
lemma cycle_not_mem_tierSg {m : ConfigModel} {res : List String} :
    Violation.SecurityGroupCycle res ∉ tierSgViolations m := by
  intro h
  rw [tierSgViolations, List.mem_filterMap] at h
  obtain ⟨t, _, ht⟩ := h
  split at ht <;> simp at ht

/-- The load-balancer check emits no cycle violation. -/
lemma cycle_not_mem_lb {m : ConfigModel} {res : List String} :
    Violation.SecurityGroupCycle res ∉ lbViolations m := by
  unfold lbViolations
  split <;> simp

/-- A cycle violation appears in the validation result exactly when the
cycle check itself reports it. -/
lemma cycle_mem_validate {m : ConfigModel} {res : List String} :
    Violation.SecurityGroupCycle res ∈ validateViolations m ↔
      Violation.SecurityGroupCycle res ∈ cycleViolations m := by
  unfold validateViolations
  simp only [List.mem_append, or_assoc]
  constructor
  · rintro (h | h | h | h | h | h | h | h)
    · exact absurd h cycle_not_mem_vpcCidr
    · exact absurd h cycle_not_mem_subnetCidr
    · exact absurd h cycle_not_mem_overlap
    · exact absurd h cycle_not_mem_az
    · exact absurd h cycle_not_mem_dangling
    · exact h
    · exact absurd h cycle_not_mem_tierSg
    · exact absurd h cycle_not_mem_lb
  · intro h
    tauto

/-! ## Claim theorems -/

/-- Convert the Bool `List.contains` of the embedding into membership. -/
lemma contains_true_iff {l : List String} {a : String} : l.contains a = true ↔ a ∈ l := by
  simp [List.contains_iff_exists_mem_beq]

/-- A failed `List.contains` refutes membership. -/
lemma not_mem_of_contains_false {l : List String} {a : String}
    (h : l.contains a = false) : a ∉ l := by
  intro hm
  rw [← contains_true_iff] at hm
  rw [h] at hm
  exact Bool.false_ne_true hm

/-- A click sequence ends in the state selected by its last click;
`navSelect` does not depend on the prior state. -/
lemma runSelects_last (dom : Dom) :
    ∀ (clicks : List String) (st : NavState) (c : String),
      ∃ d, (c :: clicks).getLast? = some d ∧
        runSelects dom st (c :: clicks) = navSelect dom st d := by
  intro clicks
  induction clicks with
  | nil => intro st c; exact ⟨c, rfl, rfl⟩
  | cons e es ih =>
    intro st c
    obtain ⟨d, hd, hrun⟩ := ih (navSelect dom st c) e
    refine ⟨d, ?_, ?_⟩
    · rw [List.getLast?_cons_cons]; exact hd
    · have hstep : runSelects dom st (c :: e :: es) =
          runSelects dom (navSelect dom st c) (e :: es) := rfl
      rw [hstep, hrun]
      rfl

/-- C1: confirmation-denied leaves the deploy attempt `Cancelled` with zero
steps executed; confirmation-granted executes all configured steps in the
declared order (create VPC, subnets, gateway, NAT gateways, security
groups, instances, load balancers, database, DNS) and ends `Completed`. -/
theorem c1_workflow_gate :
    deployArchitecture false = ⟨.Cancelled, []⟩ ∧
    deployArchitecture true =
      ⟨.Completed,
        [ "Creating VPC"
        , "Creating subnets"
        , "Creating Internet Gateway"
        , "Creating NAT Gateways"
        , "Creating security groups"
        , "Launching EC2 instances"
        , "Creating load balancers"
        , "Creating RDS database"
        , "Configuring Route 53" ]⟩ :=
  ⟨rfl, rfl⟩

/-- C2 counterexample: on the demo page, selecting `dashboard`
(successfully) and then `ec2` (whose section does not exist) leaves zero
sections active, refuting "exactly one section is active after every
operation and it equals the most recently successfully selected one". -/
theorem c2_counterexample :
    ¬ ((runSelects demoDom (navInit demoDom) ["dashboard", "ec2"]).activeSections.length = 1 ∧
       (runSelects demoDom (navInit demoDom) ["dashboard", "ec2"]).activeSections = ["dashboard"]) := by
  decide

/-- C2 amended: after any click sequence at most one section is active;
the active section is the last clicked identifier when it is a known
section, no section is active when the last click hit an unknown section,
and the dashboard is active when nothing was clicked. -/
theorem c2_navigation_exclusivity_amended (dom : Dom) (clicks : List String)
    (hdl : dom.navLinks.contains "dashboard" = true)
    (hds : dom.sections.contains "dashboard" = true) :
    (runSelects dom (navInit dom) clicks).activeSections.length ≤ 1 ∧
    (runSelects dom (navInit dom) clicks).activeSections =
      (match clicks.getLast? with
       | none => ["dashboard"]
       | some c => if dom.sections.contains c then [c] else []) := by
  cases clicks with
  | nil =>
    have h1 : "dashboard" ∈ dom.navLinks := contains_true_iff.mp hdl
    have h2 : "dashboard" ∈ dom.sections := contains_true_iff.mp hds
    simp [runSelects, navInit, hdl, hds, h1, h2]
  | cons c cs =>
    obtain ⟨d, hd, hrun⟩ := runSelects_last dom cs (navInit dom) c
    rw [hrun, hd]
    refine ⟨?_, rfl⟩
    simp only [navSelect]
    split <;> simp

/-- C3 counterexample: on the demo page, clicking the `ec2` link (an
unknown section) changes the navigation state and deactivates every
section, refuting "fails with UnknownSection and leaves the navigation
state unchanged". -/
theorem c3_counterexample :
    navSelect demoDom (navInit demoDom) "ec2" ≠ navInit demoDom ∧
    (navSelect demoDom (navInit demoDom) "ec2").activeSections = [] := by
  decide

/-- C3 amended: selecting an identifier that is not a known section
reports no error; it activates the clicked link and deactivates every
section, so the previously active section is lost and zero sections
remain active. -/
theorem c3_unknown_section_amended (dom : Dom) (st : NavState) (link : String)
    (h : dom.sections.contains link = false) :
    (navSelect dom st link).activeSections = [] ∧
    (navSelect dom st link).activeLinks = [link] := by
  simp [navSelect, h, not_mem_of_contains_false h]

/-- Witness for the amended C3 at a concrete page and click. -/
theorem c3_witness :
    demoDom.sections.contains "ec2" = false ∧
    ((navSelect demoDom (navInit demoDom) "ec2").activeSections = [] ∧
     (navSelect demoDom (navInit demoDom) "ec2").activeLinks = ["ec2"]) :=
  ⟨by decide, c3_unknown_section_amended demoDom (navInit demoDom) "ec2" (by decide)⟩

/-- Witness for the amended C2 at a concrete page and click sequence. -/
theorem c2_witness :
    demoDom.navLinks.contains "dashboard" = true ∧
    demoDom.sections.contains "dashboard" = true ∧
    ((runSelects demoDom (navInit demoDom) ["dashboard", "ec2"]).activeSections.length ≤ 1 ∧
     (runSelects demoDom (navInit demoDom) ["dashboard", "ec2"]).activeSections = []) := by
  refine ⟨by decide, by decide, ?_⟩
  have h := c2_navigation_exclusivity_amended demoDom ["dashboard", "ec2"] (by decide) (by decide)
  exact ⟨h.1, by rw [h.2]; decide⟩

/-- C9: selecting the already-active known section leaves the observable
navigation state identical to what it was before the call. -/
theorem c9_select_idempotent (dom : Dom) (st : NavState) (s : String)
    (hknown : dom.sections.contains s = true)
    (hl : st.activeLinks = [s]) (hsec : st.activeSections = [s]) :
    navSelect dom st s = st := by
  cases st with
  | mk al asec =>
    simp only at hl hsec
    subst hl
    subst hsec
    simp [navSelect, hknown, contains_true_iff.mp hknown]

/-- Witness for C9: re-selecting the dashboard on the demo page is a
no-op. -/
theorem c9_witness :
    demoDom.sections.contains "dashboard" = true ∧
    navSelect demoDom (navInit demoDom) "dashboard" = navInit demoDom :=
  ⟨by decide,
   c9_select_idempotent demoDom (navInit demoDom) "dashboard" (by decide) (by decide) (by decide)⟩

/-- C4: the default three-tier model passes validation, its canonical
artifact is exactly the hard-coded export structure of
`exportArchitecture` (so it has exactly the field set and nesting of the
export schema), and it has 1 VPC `10.0.0.0/16`, 3 subnets across 3
availability zones, the web-app-db security-group chain, 2 load
balancers, 5 instances, 1 multi-AZ database and a hosted zone with 2
CNAME records. -/
theorem c4_default_model_scenario :
    validateViolations defaultModel = [] ∧
    defaultModel.toCanonicalArtifact = architectureConfig ∧
    defaultModel.vpc.cidr = "10.0.0.0/16" ∧
    defaultModel.subnets.length = 3 ∧
    (defaultModel.subnets.map (·.az)).dedup = ["us-east-1a", "us-east-1b", "us-east-1c"] ∧
    sgNames defaultModel.securityGroups = ["web-tier-sg", "app-tier-sg", "db-tier-sg"] ∧
    defaultModel.loadBalancers.length = 2 ∧
    defaultModel.instances.length = 5 ∧
    defaultModel.database.multiAZ = true ∧
    defaultModel.dnsZone.records.map (·.type) = ["CNAME", "CNAME"] := by
  decide

/-- C5: canonical serialization is deterministic (structurally equal
models export byte-identical payloads) and the export service always
hands the persistence collaborator the same fixed suggested filename. -/
theorem c5_export_deterministic (m1 m2 : ConfigModel) (h : m1 = m2) :
    (exportModel m1).payload = (exportModel m2).payload ∧
    (exportModel m1).filename = "aws-architecture-config.json" ∧
    (exportModel m2).filename = "aws-architecture-config.json" := by
  subst h
  exact ⟨rfl, rfl, rfl⟩

/-- Witness for C5 at the default model. -/
theorem c5_witness :
    defaultModel = defaultModel ∧
    (exportModel defaultModel).payload = (exportModel defaultModel).payload ∧
    (exportModel defaultModel).filename = "aws-architecture-config.json" :=
  ⟨rfl, (c5_export_deterministic defaultModel defaultModel rfl).1,
    (c5_export_deterministic defaultModel defaultModel rfl).2.1⟩

/-- C7: the round-trip law.  Deserializing the canonical artifact of any
model recovers the model (the validity hypothesis of the claim is stated
but not needed: the law holds for every model). -/
theorem c7_round_trip (m : ConfigModel) (hvalid : validateViolations m = []) :
    ConfigModel.fromArtifact m.toCanonicalArtifact = Except.ok m := by
  have hsub : ∀ s : Subnet,
      decodeSubnet ⟨s.name, s.cidr, s.az, s.visibility.toTag⟩ = Except.ok s := by
    intro s
    cases s with
    | mk n c a v => cases v <;> rfl
  have hlb : ∀ lb : LoadBalancer,
      decodeLb ⟨lb.name, lb.kind.toTag, lb.exposure.toTag⟩ = Except.ok lb := by
    intro lb
    cases lb with
    | mk n k e => cases k <;> cases e <;> rfl
  have hinst : ∀ i : Instance,
      decodeInstance ⟨i.name, i.sizeClass, i.tier.toTag⟩ = Except.ok i := by
    intro i
    cases i with
    | mk n s t => cases t <;> rfl
  cases m with
  | mk vpc subs sgs lbs insts db dns =>
    simp only [ConfigModel.toCanonicalArtifact, ConfigModel.fromArtifact]
    rw [decodeAll_map_ok _ _ hsub, decodeAll_map_ok _ _ hlb, decodeAll_map_ok _ _ hinst]

/-- Witness for C7 at the default model. -/
theorem c7_witness :
    validateViolations defaultModel = [] ∧
    ConfigModel.fromArtifact defaultModel.toCanonicalArtifact = Except.ok defaultModel :=
  ⟨by decide, c7_round_trip defaultModel (by decide)⟩

/-- The source of a reference edge is a group name. -/
lemma sgEdge_mem_left {sgs : List SecurityGroup} {a b : String}
    (h : sgEdge sgs a b = true) : a ∈ sgNames sgs := by
  simp only [sgEdge, Bool.and_eq_true] at h
  exact contains_true_iff.mp h.1.1

/-- A model whose two security groups reference each other: a two-cycle
`sg-a` to `sg-b` to `sg-a`. -/
def cyclicModel : ConfigModel :=
  { defaultModel with
    securityGroups :=
      [ ⟨"sg-a", [⟨80, "tcp", "sg-b"⟩]⟩
      , ⟨"sg-b", [⟨80, "tcp", "sg-a"⟩]⟩ ] }

/-- C8: whenever the security-group name references form a cycle,
validation reports a `SecurityGroupCycle` violation; whenever the three
groups form a strict chain (the second references at most the first, the
third at most the second, the first references no group), validation
reports no `SecurityGroupCycle` violation. -/
theorem c8_cycle_detection (m : ConfigModel) :
    (HasCycle (sgEdge m.securityGroups) →
      ∃ res, Violation.SecurityGroupCycle res ∈ validateViolations m) ∧
    (∀ g1 g2 g3 : SecurityGroup,
      m.securityGroups = [g1, g2, g3] →
      g1.name ≠ g2.name → g1.name ≠ g3.name → g2.name ≠ g3.name →
      (∀ r ∈ g1.inbound, r.source ≠ g1.name ∧ r.source ≠ g2.name ∧ r.source ≠ g3.name) →
      (∀ r ∈ g2.inbound, r.source ≠ g2.name ∧ r.source ≠ g3.name) →
      (∀ r ∈ g3.inbound, r.source ≠ g1.name ∧ r.source ≠ g3.name) →
      ∀ res, Violation.SecurityGroupCycle res ∉ validateViolations m) := by
  constructor
  · intro hc
    have hne := residual_ne_nil_of_cycle hc
    cases hres : kahnResidual m.securityGroups with
    | nil => exact absurd hres hne
    | cons a l =>
      refine ⟨a :: l, ?_⟩
      rw [cycle_mem_validate]
      simp only [cycleViolations, hres]
      exact List.mem_singleton.mpr rfl
  · intro g1 g2 g3 hsgs h12 h13 h23 hr1 hr2 hr3 res hmem
    rw [cycle_mem_validate] at hmem
    have hres : kahnResidual m.securityGroups = [] := by
      apply residual_nil_of_rank
        (fun n => if n = g1.name then 0 else if n = g2.name then 1 else 2)
      intro a b he
      rw [hsgs] at he
      simp only [sgEdge, sgNames, List.map_cons, List.map_nil, Bool.and_eq_true,
        contains_true_iff, List.any_eq_true, beq_iff_eq, List.mem_cons,
        List.not_mem_nil, or_false] at he
      obtain ⟨⟨hca, hcb⟩, g, hg, hga, r, hrr, hrb⟩ := he
      rcases hg with hg | hg | hg
      · subst hg
        exfalso
        obtain ⟨hb1, hb2, hb3⟩ := hr1 r hrr
        rw [hrb] at hb1 hb2 hb3
        rcases hcb with h | h | h
        · exact hb1 h
        · exact hb2 h
        · exact hb3 h
      · subst hg
        obtain ⟨hb2, hb3⟩ := hr2 r hrr
        rw [hrb] at hb2 hb3
        have hb : b = g1.name := by
          rcases hcb with h | h | h
          · exact h
          · exact absurd h hb2
          · exact absurd h hb3
        rw [hb, ← hga]
        simp [Ne.symm h12]
      · subst hg
        obtain ⟨hb1, hb3⟩ := hr3 r hrr
        rw [hrb] at hb1 hb3
        have hb : b = g2.name := by
          rcases hcb with h | h | h
          · exact absurd h hb1
          · exact h
          · exact absurd h hb3
        rw [hb, ← hga]
        simp [Ne.symm h12, Ne.symm h13, Ne.symm h23]
    simp [cycleViolations, hres] at hmem

/-- Witness for C8: the two-cycle model is flagged, the default chain
model is not. -/
theorem c8_witness :
    (∃ res, Violation.SecurityGroupCycle res ∈ validateViolations cyclicModel) ∧
    (∀ res, Violation.SecurityGroupCycle res ∉ validateViolations defaultModel) := by
  constructor
  · refine (c8_cycle_detection cyclicModel).1 ⟨"sg-a", ["sg-b"], ?_⟩
    exact List.Chain.cons (by decide) (List.Chain.cons (by decide) List.Chain.nil)
  · exact (c8_cycle_detection defaultModel).2 _ _ _ rfl (by decide) (by decide) (by decide)
      (by decide) (by decide) (by decide)

/-- C10: in the exported artifact every rule source is either a CIDR or
the name of a group defined in the same artifact, the reference relation
consists of exactly the two chain edges (`app-tier-sg` references
`web-tier-sg`, `db-tier-sg` references `app-tier-sg`), and the resulting
allows-traffic-from relation has no cycle. -/
theorem c10_artifact_references_acyclic :
    (∀ g ∈ architectureConfig.securityGroups, ∀ r ∈ g.inbound,
      (parseCidr r.source).isSome = true ∨
        r.source ∈ sgNames architectureConfig.securityGroups) ∧
    (∀ a b : String, sgEdge architectureConfig.securityGroups a b = true ↔
      ((a = "app-tier-sg" ∧ b = "web-tier-sg") ∨
       (a = "db-tier-sg" ∧ b = "app-tier-sg"))) ∧
    ¬ HasCycle (sgEdge architectureConfig.securityGroups) := by
  refine ⟨by decide, ?_, ?_⟩
  · intro a b
    constructor
    · intro he
      have ha := sgEdge_mem_left he
      have hb := sgEdge_mem_right he
      simp only [sgNames, architectureConfig, List.map_cons, List.map_nil,
        List.mem_cons, List.not_mem_nil, or_false] at ha hb
      rcases ha with ha | ha | ha <;> rcases hb with hb | hb | hb <;>
        subst ha <;> subst hb <;> revert he <;> decide
    · rintro (⟨ha, hb⟩ | ⟨ha, hb⟩) <;> subst ha <;> subst hb <;> decide
  · intro hc
    exact residual_ne_nil_of_cycle hc (by decide)

/-- Witness for C10: the two chain edges exist, a concrete CIDR source
parses, and a concrete group-name source is defined in the artifact. -/
theorem c10_witness :
    (sgEdge architectureConfig.securityGroups "app-tier-sg" "web-tier-sg" = true) ∧
    ((parseCidr "0.0.0.0/0").isSome = true ∨
      "0.0.0.0/0" ∈ sgNames architectureConfig.securityGroups) := by
  constructor
  · exact (c10_artifact_references_acyclic.2.1 "app-tier-sg" "web-tier-sg").mpr
      (Or.inl ⟨rfl, rfl⟩)
  · exact c10_artifact_references_acyclic.1 ⟨"web-tier-sg",
      [⟨80, "tcp", "0.0.0.0/0"⟩, ⟨443, "tcp", "0.0.0.0/0"⟩]⟩ (by decide)
      ⟨80, "tcp", "0.0.0.0/0"⟩ (by decide)
